import Mathlib

/-!
Verification development for the SPSS `.sav` binary reader (`SPSSread.py`).

The byte stream of the input file is modelled as `List Nat` (one entry per
byte, read strictly forward).  IEEE doubles are never computed with: every
8-byte float cell is carried around as its raw 8 bytes, exactly as the
program carries `struct.unpack` results around without arithmetic on them.
Python's dynamically typed values are modelled by the inductive `PyVal`.
A Python exception that would abort the process (TypeError / IndexError /
AttributeError from the various `...[0]` and `ord('')` calls) is modelled
as the error `DErr.pyCrash`; the explicit `sys.exit(1)` in `GetData` is
modelled as `DErr.exit1` carrying the reported case/variable coordinates.
-/

namespace SPSSRead

/-- Errors that abort the decode: a Python-level crash, the explicit
`sys.exit(1)` of `GetData` (with the case and variable index it reports),
or fuel exhaustion of the loop models (never reached on the inputs used). -/
inductive DErr where
  | pyCrash : DErr
  | exit1 : Nat → Nat → DErr
  | fuelOut : DErr
  deriving DecidableEq, Repr

/-- A dynamically-typed Python value as returned by the cell decoders:
`None`, an `int`, a `float` (kept as its raw 8 bytes), or a `str` (bytes). -/
inductive PyVal where
  | vNone : PyVal
  | vInt : Int → PyVal
  | vFlt : List Nat → PyVal
  | vStr : List Nat → PyVal
  deriving DecidableEq, Repr

/-- The bytes of the Python string literal `"False"`, the failure sentinel
returned by `GetNumber`. -/
def falseBytes : List Nat := [70, 97, 108, 115, 101]

/-- The raw bytes of the float `0.0` (IEEE double: eight zero bytes). -/
def zero8 : List Nat := List.replicate 8 0

/-- Little-endian value of a byte list. -/
def leVal : List Nat → Nat
  | [] => 0
  | b :: r => b + 256 * leVal r

/-- `struct.unpack("i", vv)`: a signed little-endian 32-bit integer; it
succeeds exactly when `vv` has 4 bytes (`pkint` catches the failure). -/
def int32 (bs : List Nat) : Option Int :=
  if bs.length = 4 then
    some (if leVal bs < 2147483648 then (leVal bs : Int) else (leVal bs : Int) - 4294967296)
  else none

/-- Little-endian 4-byte encoding of a (small, non-negative here) integer,
used to build concrete test streams. -/
def i4enc (n : Int) : List Nat :=
  let u := (n % 4294967296).toNat
  [u % 256, u / 256 % 256, u / 65536 % 256, u / 16777216 % 256]

/-- `pkint(self.fin.read(4))[0]`: reads 4 bytes and unpacks a signed int.
On a short read `pkint` returns the plain int `0` and the `[0]` subscript
raises a TypeError, modelled as `pyCrash`. -/
def readInt (s : List Nat) : Except DErr (Int × List Nat) :=
  match int32 (s.take 4) with
  | some v => .ok (v, s.drop 4)
  | none => .error .pyCrash

/-- `pkflt(self.fin.read(8))[0]`: reads 8 bytes.  On a short read `pkflt`
returns the plain float `0.0` and the `[0]` subscript raises a TypeError.
The decoded double is kept as its raw 8 bytes. -/
def readFlt (s : List Nat) : Except DErr (List Nat × List Nat) :=
  if 8 ≤ s.length then .ok (s.take 8, s.drop 8) else .error .pyCrash

/-- `self.fin.read(n)` for a Python int `n`: a negative count reads the
whole rest of the file, otherwise at most `n` bytes are returned. -/
def readI (n : Int) (s : List Nat) : List Nat × List Nat :=
  if n < 0 then (s, []) else (s.take n.toNat, s.drop n.toNat)

/-- Python list subscript `l[i]`: non-negative indices are bounds-checked,
negative indices wrap from the end; out of range raises (IndexError). -/
def pyIdx {α : Type} (l : List α) (i : Int) : Except DErr α :=
  if 0 ≤ i then
    match l.get? i.toNat with
    | some x => .ok x
    | none => .error .pyCrash
  else
    if (-i).toNat ≤ l.length then
      match l.get? (l.length - (-i).toNat) with
      | some x => .ok x
      | none => .error .pyCrash
    else .error .pyCrash

/-- In-place mutation `l[i].f = v` through a Python subscript: same index
semantics as `pyIdx`, applying `f` to the addressed element. -/
def pySet {α : Type} (l : List α) (i : Int) (f : α → α) : Except DErr (List α) :=
  if 0 ≤ i then
    match l.get? i.toNat with
    | some x => .ok (l.set i.toNat (f x))
    | none => .error .pyCrash
  else
    if (-i).toNat ≤ l.length then
      match l.get? (l.length - (-i).toNat) with
      | some x => .ok (l.set (l.length - (-i).toNat) (f x))
      | none => .error .pyCrash
    else .error .pyCrash

/-- The `variable` class's `missingd` attribute: initialised to `[]`, and
set during dictionary decoding to `None`, to a single float, or to a list
of floats depending on the missing-value marker. -/
inductive MissingD where
  | emptyList : MissingD
  | pynone : MissingD
  | single : List Nat → MissingD
  | lst : List (List Nat) → MissingD
  deriving DecidableEq, Repr

/-- The `variable` class's `missingr` attribute: initialised to `[]`, and
set to `(None, None)`, to a pair of floats, or to `None`. -/
inductive MissingR where
  | emptyList : MissingR
  | pynone : MissingR
  | pairNone : MissingR
  | pairVals : List Nat → List Nat → MissingR
  deriving DecidableEq, Repr

/-- One decoded variable (the `variable` class).  Attributes that the
source only sets on some paths are `Option`s (`none` = attribute unset). -/
structure Variable where
  name : List Nat
  data : List PyVal
  missingmarker : Option Int
  missingd : MissingD
  missingr : MissingR
  type : Option String
  typecode : Int
  labelmarker : Option Int
  decplaces : Option Nat
  colwidth : Option Nat
  formattype : Option (Option String × Option String)
  decplaces_wrt : Option Nat
  colwidth_wrt : Option Nat
  formattype_wrt : Option (Option String × Option String)
  labellength : Option Int
  label : Option (List Nat)
  labelvalues : List (List Nat)
  labelfields : List (List Nat)
  measure : Option String
  displaywidth : Option Int
  align : Option String
  deriving DecidableEq, Repr

/-- A freshly constructed `variable()` object. -/
def defVariable : Variable :=
  { name := [], data := [], missingmarker := none, missingd := .emptyList,
    missingr := .emptyList, type := none, typecode := 0, labelmarker := none,
    decplaces := none, colwidth := none, formattype := none,
    decplaces_wrt := none, colwidth_wrt := none, formattype_wrt := none,
    labellength := none, label := none, labelvalues := [], labelfields := [],
    measure := none, displaywidth := none, align := none }

/-- The mutable state of an `SPSSFile` object as far as the dictionary and
data loops touch it.  The `compressionbias` header field is stored on the
object but never read by any later code, so `GetRecords` returns it beside
this state instead of threading it through the loop.  Fields of type
`Option Int` hold `pkint` results: `some v` is the unpacked tuple `(v,)`,
`none` is the plain int `0` that `pkint` returns on a failed unpack (so a
field compares equal to `0` exactly when it is `none`). -/
structure FileState where
  recordtypeRaw : List Nat
  eyecatcher : List Nat
  filelayoutcode : Option Int
  numOBSelements : Option Int
  compressionswitch : Option Int
  caseweightvar : Option Int
  numcases : Option Int
  metastr : List Nat
  documents : List Nat
  variablelist : List Variable
  rawvarlist : List (Option Nat)
  r3values : List (List Nat)
  r3labels : List (List Nat)
  releasenum : Option Int
  releasesubnum : Option Int
  releaseidnum : Option Int
  machinecode : Option Int
  FPrep : Option String
  compressionscheme : Option Int
  endiancode : Option String
  charrepcode : Option String
  SYSMIS : Option (List Nat)
  himissingval : Option (List Nat)
  lomissingval : Option (List Nat)
  variablesets : Option (List Nat)
  explicitperiodflag : Option Int
  period : Option Int
  numdatevars : Option Int
  lowestincr : Option Int
  higheststart : Option Int
  datevarsmarker : Option Int
  Other7 : Option (List Nat)
  cluster : List Nat
  deriving DecidableEq, Repr

/-- An `SPSSFile` object before any record has been read (`__init__`). -/
def emptyState : FileState :=
  { recordtypeRaw := [], eyecatcher := [], filelayoutcode := none,
    numOBSelements := none, compressionswitch := none, caseweightvar := none,
    numcases := none, metastr := [], documents := [], variablelist := [],
    rawvarlist := [], r3values := [], r3labels := [], releasenum := none,
    releasesubnum := none, releaseidnum := none, machinecode := none,
    FPrep := none, compressionscheme := none, endiancode := none,
    charrepcode := none, SYSMIS := none, himissingval := none,
    lomissingval := none, variablesets := none, explicitperiodflag := none,
    period := none, numdatevars := none, lowestincr := none,
    higheststart := none, datevarsmarker := none, Other7 := none,
    cluster := [] }

/-- `GetNumber`: decodes one numeric cell.  `cswitch` is
`self.compressionswitch` (`none` models the plain `0` that compares equal
to `0`, see `FileState`); `sysmis` is `self.SYSMIS` (`none` = attribute
never set, so touching it raises).  Returns the decoded value together
with the updated `self.cluster` and the remaining stream. -/
def GetNumber (cswitch : Option Int) (sysmis : Option (List Nat))
    (cluster s : List Nat) : Except DErr (PyVal × List Nat × List Nat) :=
  if cswitch = none then
    -- uncompressed number: one raw 8-byte read
    let chunk := s.take 8
    if chunk.length < 1 then .ok (.vStr falseBytes, cluster, s.drop 8)
    else if chunk.length = 8 then .ok (.vFlt chunk, cluster, s.drop 8)
    else .error .pyCrash   -- pkflt fails on 1..7 bytes, then `[0]` raises
  else
    -- compressed number: pop one control byte from the cluster
    let (cluster, s) := if cluster.isEmpty then (s.take 8, s.drop 8) else (cluster, s)
    match cluster with
    | [] => .error .pyCrash   -- pop from an empty list raises IndexError
    | b :: cl =>
      if 1 < b ∧ b < 252 then .ok (.vInt ((b : Int) - 100), cl, s)
      else if b = 252 then .ok (.vStr falseBytes, cl, s)
      else if b = 253 then
        let chunk := s.take 8
        if chunk.length < 1 then .ok (.vStr falseBytes, cl, s.drop 8)
        else if chunk.length = 8 then .ok (.vFlt chunk, cl, s.drop 8)
        else .error .pyCrash
      else if b = 254 then .ok (.vFlt zero8, cl, s)
      else if b = 255 then
        match sysmis with
        | some m => .ok (.vFlt m, cl, s)
        | none => .error .pyCrash   -- self.SYSMIS was never set
      else .ok (.vNone, cl, s)   -- bytes 0 and 1: no branch, falls off the method

/-- `self.SYSMIS` as a return value (raises if the attribute is unset). -/
def sysmisVal (sysmis : Option (List Nat)) (cl s : List Nat) :
    Except DErr (PyVal × List Nat × List Nat) :=
  match sysmis with
  | some m => .ok (.vFlt m, cl, s)
  | none => .error .pyCrash

/-- The `while 1` loop of `GetString` in the compressed case: `ln` is the
accumulator, then the cluster and the stream.  Each pass consumes at least
one pending byte, so the fuel `cluster.length + s.length + 1` used by
`GetString` can never run out before the source loop would have crashed. -/
def getStringLoop (sysmis : Option (List Nat)) (tc : Int) :
    Nat → List Nat → List Nat → List Nat → Except DErr (PyVal × List Nat × List Nat)
  | 0, _, _, _ => .error .fuelOut
  | fuel + 1, ln, cluster, s =>
    let (cluster, s) := if cluster.isEmpty then (s.take 8, s.drop 8) else (cluster, s)
    match cluster with
    | [] => .error .pyCrash   -- pop from an empty list raises IndexError
    | b :: cl =>
      if 0 < b ∧ b < 252 then .ok (.vInt ((b : Int) - 100), cl, s)
      else if b = 252 then sysmisVal sysmis cl s
      else if b = 253 then
        let chunk := s.take 8
        let s' := s.drop 8
        if chunk.length < 1 then sysmisVal sysmis cl s'
        else
          -- pkstr accepts a short chunk; the accumulator simply grows by it
          let ln' := ln ++ chunk
          if tc < (ln'.length : Int) then .ok (.vStr ln', cl, s')
          else getStringLoop sysmis tc fuel ln' cl s'
      else if b = 254 then
        if ln ≠ [] then .ok (.vStr ln, cl, s)
        else getStringLoop sysmis tc fuel ln cl s
      else if b = 255 then sysmisVal sysmis cl s
      else getStringLoop sysmis tc fuel ln cl s   -- byte 0: no branch matches, loop again

/-- `GetString(var)`: decodes one string cell for a variable whose
`typecode` is `tc`. -/
def GetString (cswitch : Option Int) (sysmis : Option (List Nat)) (tc : Int)
    (cluster s : List Nat) : Except DErr (PyVal × List Nat × List Nat) :=
  if cswitch = none then
    let chunk := s.take 8
    if chunk.length < 1 then sysmisVal sysmis cluster (s.drop 8)
    else .ok (.vStr chunk, cluster, s.drop 8)
  else getStringLoop sysmis tc (cluster.length + s.length + 1) [] cluster s

/-- `GetPrintWriteCode`: format-code lookup table.  The argument always
comes from `ord(...)`, so the `type(code) != int` guard never fires. -/
def GetPrintWriteCode (code : Nat) : Option String × Option String :=
  if code = 0 then (some "", some "Continuation of string variable")
  else if code = 1 then (some "A", some "Alphanumeric")
  else if code = 2 then (some "AHEX", some "alphanumeric hexadecimal")
  else if code = 3 then (some "COMMA", some "F format with commas")
  else if code = 4 then (some "DOLLAR", some "Commas and floating point dollar sign")
  else if code = 5 then (some "F", some "F (default numeric) format")
  else if code = 6 then (some "IB", some "Integer binary")
  else if code = 7 then (some "PIBHEX", some "Positive binary integer - hexadecimal")
  else if code = 8 then (some "P", some "Packed decimal")
  else if code = 9 then (some "PIB", some "Positive integer binary (Unsigned)")
  else if code = 10 then (some "PK", some "Positive packed decimal (Unsigned)")
  else if code = 11 then (some "RB", some "Floating point binary")
  else if code = 12 then (some "RBHEX", some "Floating point binary - hexadecimal")
  else if code = 15 then (some "Z", some "Zoned decimal")
  else if code = 16 then (some "N", some "N format - unsigned with leading zeros")
  else if code = 17 then (some "E", some "E format - with explicit power of ten")
  else if code = 20 then (some "DATE", some "Date format dd-mmm-yyyy")
  else if code = 21 then (some "TIME", some "Time format hh:mm:ss.s")
  else if code = 22 then (some "DATETIME", some "Date and time")
  else if code = 23 then (some "ADATE", some "Date in mm/dd/yyyy form")
  else if code = 24 then (some "JDATE", some "Julian date - yyyyddd")
  else if code = 25 then (some "DTIME", some "Date-time dd hh:mm:ss.s")
  else if code = 26 then (some "WKDAY", some "Day of the week")
  else if code = 27 then (some "MONTH", some "Month")
  else if code = 28 then (some "MOYR", some "mmm yyyy")
  else if code = 29 then (some "QYR", some "q Q yyyy")
  else if code = 30 then (some "WKYR", some "ww WK yyyy")
  else if code = 31 then (some "PCT", some "Percent - F followed by percent sign")
  else if code = 32 then (some "DOT", some "Like COMMA, switching dot for comma")
  else if 33 ≤ code ∧ code ≤ 37 then (some "CCA-CCE", some "User-programmable currency format")
  else if code = 38 then (some "EDATE", some "Date in dd.mm.yyyy style")
  else if code = 39 then (some "SDATE", some "Date in yyyy/mm/dd style")
  else (none, none)

/-- One print/write format word of a type-2 record: 4 bytes are read and
the first three are taken apart with `ord(IN[0]) / ord(IN[1]) / ord(IN[2])`
(a subscript on a too-short read raises). -/
def readFmtWord (s : List Nat) : Except DErr (Nat × Nat × Nat × List Nat) :=
  let chunk := s.take 4
  if 3 ≤ chunk.length then
    .ok (chunk.getD 0 0, chunk.getD 1 0, chunk.getD 2 0, s.drop 4)
  else .error .pyCrash

/-- Reads `n` consecutive 8-byte floats (the discrete missing-value loop). -/
def readFlts : Nat → List Nat → Except DErr (List (List Nat) × List Nat)
  | 0, s => .ok ([], s)
  | n + 1, s =>
    match readFlt s with
    | .error e => .error e
    | .ok (v, s) =>
      match readFlts n s with
      | .error e => .error e
      | .ok (vs, s) => .ok (v :: vs, s)

/-- The missing-value payload of a type-2 record (source lines 201-224):
first the loop `for i in range(abs(x.missingmarker)): self.fin.read(8)`
skips `|m|` 8-byte words, and only then are the missing values themselves
read from the stream with further 8-byte reads.  Returns the decoded
`missingd` and `missingr` (whose incoming values are the `[]` initialisers)
and the remaining stream.  Note the source spells `x.missings = None` in
the `-2` branch, so `missingd` is left untouched there. -/
def missingPayload (mm : Int) (s : List Nat) :
    Except DErr (MissingD × MissingR × List Nat) :=
  let s := s.drop (8 * mm.natAbs)
  if mm = 0 then .ok (.pynone, .pairNone, s)
  else if mm = -2 ∨ mm = -3 then
    match readFlt s with
    | .error e => .error e
    | .ok (v1, s) =>
      match readFlt s with
      | .error e => .error e
      | .ok (v2, s) =>
        if mm = -3 then
          match readFlt s with
          | .error e => .error e
          | .ok (v3, s) => .ok (.single v3, .pairVals v1 v2, s)
        else .ok (.emptyList, .pairVals v1 v2, s)
  else if 0 < mm ∧ mm < 4 then
    match readFlts mm.toNat s with
    | .error e => .error e
    | .ok (vs, s) => .ok (.lst vs, .pynone, s)
  else .ok (.emptyList, .emptyList, s)

/-- `GetRecordType2`: one variable-definition record (the 4-byte type tag
has already been consumed by the dispatch loop).  The source compares the
variable *object* with `0` (`if x == 0`), which is always false in
Python 2, so `type` is always set to `"String"`. -/
def GetRecordType2 (st : FileState) (s : List Nat) :
    Except DErr (FileState × List Nat) := do
  let (tc, s) ← readInt s
  if tc ≠ -1 then do
    let (lm, s) ← readInt s
    let (mm, s) ← readInt s
    let (d0, c0, f0, s) ← readFmtWord s
    let (d1, c1, f1, s) ← readFmtWord s
    let name := s.take 8
    let s := s.drop 8
    let nameblank := name.all (fun ch => ch = 32)
    let (lablen, lab, s) ←
      if lm = 1 then do
        let (ll, s) ← readInt s
        let llr := if ll % 4 ≠ 0 then ll + 4 - ll % 4 else ll
        let (lab, s) := readI llr s
        pure ((some ll : Option Int), lab, s)
      else
        pure ((none : Option Int), ([] : List Nat), s)
    let (md, mr, s) ← missingPayload mm s
    let x : Variable :=
      { defVariable with
        typecode := tc, type := some "String", labelmarker := some lm,
        missingmarker := some mm, decplaces := some d0, colwidth := some c0,
        formattype := some (GetPrintWriteCode f0), decplaces_wrt := some d1,
        colwidth_wrt := some c1, formattype_wrt := some (GetPrintWriteCode f1),
        name := name, labellength := lablen, label := some lab,
        missingd := md, missingr := mr }
    if nameblank = false then
      let vl := st.variablelist ++ [x]
      pure ({ st with
                variablelist := vl,
                rawvarlist := st.rawvarlist ++ [some vl.length] }, s)
    else
      pure (st, s)
  else do
    -- string continuation: repeat the last raw index (None when there is
    -- none, the source catches the IndexError) and skip 24 bytes
    let prev : Option Nat :=
      match st.rawvarlist.getLast? with
      | some v => v
      | none => none
    pure ({ st with rawvarlist := st.rawvarlist ++ [prev] }, s.drop 24)

/-- The value/label pair loop of `GetRecordType3`: each pair is an 8-byte
float key and a length-prefixed string whose stored length is rounded up
to a multiple of 8; `self.fin.read(l-1)` reads the string (for a stored
length byte of 0 the rounded length stays 0 and `read(-1)` slurps the rest
of the file).  `ord` of an empty read raises. -/
def labelPairs : Nat → List Nat → Except DErr (List (List Nat) × List (List Nat) × List Nat)
  | 0, s => .ok ([], [], s)
  | n + 1, s =>
    match readFlt s with
    | .error e => .error e
    | .ok (v, s) =>
      match s with
      | [] => .error .pyCrash
      | lb :: s =>
        let l := if lb % 8 ≠ 0 then lb + 8 - lb % 8 else lb
        let (fld, s) := readI ((l : Int) - 1) s
        match labelPairs n s with
        | .error e => .error e
        | .ok (vs, fs, s) => .ok (v :: vs, fld :: fs, s)

/-- Reads `n` consecutive 4-byte ints (the type-4 variable-index list). -/
def readInts : Nat → List Nat → Except DErr (List Int × List Nat)
  | 0, s => .ok ([], s)
  | n + 1, s =>
    match readInt s with
    | .error e => .error e
    | .ok (v, s) =>
      match readInts n s with
      | .error e => .error e
      | .ok (vs, s) => .ok (v :: vs, s)

/-- The application loop of a type-4 record: for each raw variable index
`i`, `self.rawvarlist[i-1]` resolves the owning slot (a `None` entry makes
`ind - 1` raise a TypeError) and the addressed variable's label lists are
overwritten. -/
def attachLabels (values fields : List (List Nat)) :
    List Int → FileState → Except DErr FileState
  | [], st => .ok st
  | i :: rest, st => do
    let ind ← pyIdx st.rawvarlist (i - 1)
    match ind with
    | none => .error .pyCrash
    | some k => do
      let vl ← pySet st.variablelist ((k : Int) - 1)
        (fun v => { v with labelvalues := values, labelfields := fields })
      attachLabels values fields rest { st with variablelist := vl }

/-- `GetRecordType3`: a type-3 value-label record followed by its type-4
variable-index record.  A type-4 slot holding anything but `4` prints
"Invalid subtype" and merely returns (the `sys.exit(1)` is commented out),
so the dictionary loop keeps running. -/
def GetRecordType3 (st : FileState) (s : List Nat) :
    Except DErr (FileState × List Nat) :=
  let st := { st with r3values := [], r3labels := [] }
  match readInt s with
  | .error e => .error e
  | .ok (cnt, s) =>
    match labelPairs cnt.toNat s with
    | .error e => .error e
    | .ok (values, fields, s) =>
      match readInt s with
      | .error e => .error e
      | .ok (t, s) =>
        if t = 4 then
          match readInt s with
          | .error e => .error e
          | .ok (nv, s) =>
            match readInts nv.toNat s with
            | .error e => .error e
            | .ok (labelinds, s) =>
              match attachLabels values fields labelinds st with
              | .error e => .error e
              | .ok st => .ok (st, s)
        else
          .ok (st, s)

/-- `GetRecordType6`: the documents record -- an element count and that
many 80-byte lines, read in one slurp.  Dead code in the source: the
dispatch loop never calls it (its `elif IN == 6` branch is `pass`). -/
def GetRecordType6 (st : FileState) (s : List Nat) :
    Except DErr (FileState × List Nat) := do
  let (cnt, s) ← readInt s
  let (txt, s) := readI (80 * cnt) s
  pure ({ st with documents := txt }, s)

/-- `pkint(self.fin.read(n))[0]` for a size `n` taken from the file: the
unpack succeeds exactly when the read returned 4 bytes. -/
def readIntSized (n : Int) (s : List Nat) : Except DErr (Int × List Nat) :=
  let (chunk, s') := readI n s
  match int32 chunk with
  | some v => .ok (v, s')
  | none => .error .pyCrash

/-- The lookup tables of `GetType73`. -/
def FPrepList : List String := ["IEEE", "IBM 370", "DEC VAX E"]

/-- Endianness names of `GetType73`. -/
def endianList : List String := ["Big-endian", "Little-endian"]

/-- Character-representation names of `GetType73`. -/
def charrepList : List String := ["EBCDIC", "7-bit ASCII", "8-bit ASCII", "DEC Kanji"]

/-- `GetType73`: release/machine integer record, exactly 8 elements; any
other element count prints an error and returns. -/
def GetType73 (st : FileState) (s : List Nat) :
    Except DErr (FileState × List Nat) := do
  let (_datatype, s) ← readInt s
  let (numelements, s) ← readInt s
  if numelements = 8 then do
    let (rn, s) ← readInt s
    let (rsn, s) ← readInt s
    let (rin, s) ← readInt s
    let (mc, s) ← readInt s
    let (fp, s) ← readInt s
    let fpS ← pyIdx FPrepList (fp - 1)
    let (cs, s) ← readInt s
    let (en, s) ← readInt s
    let enS ← pyIdx endianList (en - 1)
    let (cr, s) ← readInt s
    let crS ← pyIdx charrepList (cr - 1)
    pure ({ st with
              releasenum := some rn, releasesubnum := some rsn,
              releaseidnum := some rin, machinecode := some mc,
              FPrep := some fpS, compressionscheme := some cs,
              endiancode := some enS, charrepcode := some crS }, s)
  else
    pure (st, s)

/-- `self.fin.readline(8)`: at most 8 bytes, stopping after a newline. -/
def readline8 (s : List Nat) : List Nat × List Nat :=
  match (s.take 8).findIdx? (fun b => b = 10) with
  | some i => (s.take (i + 1), s.drop (i + 1))
  | none => (s.take 8, s.drop 8)

/-- `pkflt(self.fin.readline(8))[0]`: crashes unless the line read
delivered exactly 8 bytes. -/
def readlineFlt (s : List Nat) : Except DErr (List Nat × List Nat) :=
  let (chunk, s') := readline8 s
  if chunk.length = 8 then .ok (chunk, s') else .error .pyCrash

/-- `GetType74`: system-missing and high/low missing sentinels; requires
3 elements of width 8, otherwise prints an error and returns. -/
def GetType74 (st : FileState) (s : List Nat) :
    Except DErr (FileState × List Nat) := do
  let (dt, s) ← readInt s
  let (ne, s) ← readInt s
  if ne = 3 ∧ dt = 8 then do
    let (m1, s) ← readlineFlt s
    let (m2, s) ← readlineFlt s
    let (m3, s) ← readlineFlt s
    pure ({ st with
              SYSMIS := some m1, himissingval := some m2,
              lomissingval := some m3 }, s)
  else
    pure (st, s)

/-- `GetType75`: variable-sets text blob, stored verbatim. -/
def GetType75 (st : FileState) (s : List Nat) :
    Except DErr (FileState × List Nat) := do
  let (_dt, s) ← readInt s
  let (ne, s) ← readInt s
  let (blob, s) := readI (4 * ne) s
  pure ({ st with variablesets := some blob }, s)

/-- `GetType76`: TRENDS metadata header.  When at least one date variable
is declared, the loop body calls `self.GetDateVar(self.fin.read(4))`,
which indexes a Python list with a *string* -- a TypeError that the
`except IndexError` does not catch, so the decode crashes there. -/
def GetType76 (st : FileState) (s : List Nat) :
    Except DErr (FileState × List Nat) := do
  let (_dt, s) ← readInt s
  let (_ne, s) ← readInt s
  let (epf, s) ← readInt s
  let (per, s) ← readInt s
  let (ndv, s) ← readInt s
  let (li, s) ← readInt s
  let (hs, s) ← readInt s
  let (dvm, s) ← readInt s
  let st := { st with
                explicitperiodflag := some epf, period := some per,
                numdatevars := some ndv, lowestincr := some li,
                higheststart := some hs, datevarsmarker := some dvm }
  if 1 ≤ ndv then do
    let (_, s) ← readInt s
    let _ := s.take 4
    .error .pyCrash
  else
    pure (st, s)

/-- Measurement-level names of `GetType711`. -/
def measureList : List String := ["Nominal", "Ordinal", "Continuous"]

/-- Alignment names of `GetType711`. -/
def alignList : List String := ["Left", "Right", "Centre"]

/-- The per-variable loop of `GetType711`: `self.variablelist[ind]` is
looked up first (IndexError when past the registry), then three
`datatype`-sized ints: measurement (indexed with `IN - 1`), display width,
and alignment (indexed with `IN`, not `IN - 1`). -/
def t711Loop (dt : Int) : Nat → Nat → FileState → List Nat →
    Except DErr (FileState × List Nat)
  | 0, _, st, s => .ok (st, s)
  | n + 1, ind, st, s => do
    let _ ← pyIdx st.variablelist (ind : Int)
    let (m, s) ← readIntSized dt s
    let ms ← pyIdx measureList (m - 1)
    let (dw, s) ← readIntSized dt s
    let (al, s) ← readIntSized dt s
    let alS ← pyIdx alignList al
    let vl ← pySet st.variablelist (ind : Int)
      (fun v => { v with
                    measure := some ms, displaywidth := some dw,
                    align := some alS })
    t711Loop dt n (ind + 1) { st with variablelist := vl } s

/-- `GetType711`: measurement level / display width / alignment triples;
the element count is floor-divided by 3 (Python integer division). -/
def GetType711 (st : FileState) (s : List Nat) :
    Except DErr (FileState × List Nat) := do
  let (dt, s) ← readInt s
  let (neRaw, s) ← readInt s
  t711Loop dt (Int.fdiv neRaw 3).toNat 0 st s

/-- `GetType713`: long-variable-names block; the tokenizer loop only
builds local strings (and its comparisons `ord(byte) == "="` and
`byte == '09'` are always false anyway), so the record is just consumed. -/
def GetType713 (st : FileState) (s : List Nat) :
    Except DErr (FileState × List Nat) := do
  let (_dt, s) ← readInt s
  let (ne, s) ← readInt s
  let (_chunk, s) := readI ne s
  pure (st, s)

/-- `GetType7other`: unknown subtype, `datatype * numelements` raw bytes
stashed opaquely. -/
def GetType7other (st : FileState) (s : List Nat) :
    Except DErr (FileState × List Nat) := do
  let (dt, s) ← readInt s
  let (ne, s) ← readInt s
  let (blob, s) := readI (dt * ne) s
  pure ({ st with Other7 := some blob }, s)

/-- `GetRecordType7`: subtype dispatch. -/
def GetRecordType7 (st : FileState) (s : List Nat) :
    Except DErr (FileState × List Nat) := do
  let (sub, s) ← readInt s
  if sub = 3 then GetType73 st s
  else if sub = 4 then GetType74 st s
  else if sub = 5 then GetType75 st s
  else if sub = 6 then GetType76 st s
  else if sub = 11 then GetType711 st s
  else if sub = 13 then GetType713 st s
  else GetType7other st s

/-- The type-1 header record.  `filelayoutcode` through `numcases` are
`pkint` results stored *without* the `[0]` subscript, so they stay tuples
(`some v`) or the failure int `0` (`none`); `compressionbias` is 8 raw
undecoded bytes. -/
structure Header where
  recordtypeRaw : List Nat
  eyecatcher : List Nat
  filelayoutcode : Option Int
  numOBSelements : Option Int
  compressionswitch : Option Int
  caseweightvar : Option Int
  numcases : Option Int
  compressionbias : List Nat
  metastr : List Nat
  deriving DecidableEq, Repr

/-- `GetRecordType1`: the fixed-layout file header.  The source performs
nine sequential reads of 4, 60, 4, 4, 4, 4, 4, 8 and 84 bytes; the fields
are written here at their resulting fixed offsets. -/
def GetRecordType1 (s : List Nat) : Header × List Nat :=
  ({ recordtypeRaw := s.take 4,
     eyecatcher := (s.drop 4).take 60,
     filelayoutcode := int32 ((s.drop 64).take 4),
     numOBSelements := int32 ((s.drop 68).take 4),
     compressionswitch := int32 ((s.drop 72).take 4),
     caseweightvar := int32 ((s.drop 76).take 4),
     numcases := int32 ((s.drop 80).take 4),
     compressionbias := (s.drop 84).take 8,
     metastr := (s.drop 92).take 84 }, s.drop 176)

/-- The `SPSSFile` state right after `GetRecordType1`, before the record
loop: the header fields (minus the never-again-read `compressionbias`)
plus the `__init__` defaults. -/
def initState (h : Header) : FileState :=
  { emptyState with
      recordtypeRaw := h.recordtypeRaw, eyecatcher := h.eyecatcher,
      filelayoutcode := h.filelayoutcode, numOBSelements := h.numOBSelements,
      compressionswitch := h.compressionswitch,
      caseweightvar := h.caseweightvar, numcases := h.numcases,
      metastr := h.metastr }

/-- The inner loop of `GetData` over `enumerate(self.variablelist)` for
one case: numeric cells through `GetNumber` (the `"False"` sentinel is
fatal, `sys.exit(1)`), string cells of width 1..255 through `GetString`
(compared against the same `"False"` string), anything else skipped. -/
def getDataVars (cswitch : Option Int) (sysmis : Option (List Nat))
    (caseIdx : Nat) : Nat → List Variable → List Nat → List Nat →
    Except DErr (List Variable × List Nat × List Nat)
  | _, [], cluster, s => .ok ([], cluster, s)
  | i, v :: vs, cluster, s =>
    if v.typecode = 0 then
      match GetNumber cswitch sysmis cluster s with
      | .error e => .error e
      | .ok (n, cluster, s) =>
        if n = .vStr falseBytes then .error (.exit1 caseIdx i)
        else
          match getDataVars cswitch sysmis caseIdx (i + 1) vs cluster s with
          | .error e => .error e
          | .ok (vs', cluster, s) =>
            .ok ({ v with data := v.data ++ [n] } :: vs', cluster, s)
    else if 0 < v.typecode ∧ v.typecode < 256 then
      match GetString cswitch sysmis v.typecode cluster s with
      | .error e => .error e
      | .ok (x, cluster, s) =>
        if x = .vStr falseBytes then .error (.exit1 caseIdx i)
        else
          match getDataVars cswitch sysmis caseIdx (i + 1) vs cluster s with
          | .error e => .error e
          | .ok (vs', cluster, s) =>
            .ok ({ v with data := v.data ++ [x] } :: vs', cluster, s)
    else
      match getDataVars cswitch sysmis caseIdx (i + 1) vs cluster s with
      | .error e => .error e
      | .ok (vs', cluster, s) => .ok (v :: vs', cluster, s)

/-- The outer loop of `GetData` over `range(self.numcases[0])`:
`caseIdx` counts up while `n` counts the cases still to read. -/
def getDataCases (cswitch : Option Int) (sysmis : Option (List Nat)) :
    Nat → Nat → List Variable → List Nat → List Nat →
    Except DErr (List Variable × List Nat × List Nat)
  | _, 0, vars, cluster, s => .ok (vars, cluster, s)
  | caseIdx, n + 1, vars, cluster, s =>
    match getDataVars cswitch sysmis caseIdx 0 vars cluster s with
    | .error e => .error e
    | .ok (vars, cluster, s) => getDataCases cswitch sysmis (caseIdx + 1) n vars cluster s

/-- `GetData`: the data matrix reader.  `self.cluster` is reset to `[]`
on entry; `self.numcases[0]` raises when the header unpack had failed. -/
def GetData (st : FileState) (s : List Nat) :
    Except DErr (FileState × List Nat) :=
  match st.numcases with
  | none => .error .pyCrash
  | some n =>
    match getDataCases st.compressionswitch st.SYSMIS 0 n.toNat st.variablelist [] s with
    | .error e => .error e
    | .ok (vars, cluster, s) =>
      .ok ({ st with variablelist := vars, cluster := cluster }, s)

/-- The `while 1` dispatch loop of `GetRecords`: read a 4-byte type tag
and despatch.  Tag 6 is `pass` (the documents record is never decoded);
unknown tags fall through and the loop just reads the next word; tag 999
reads a 4-byte pad and hands over to `GetData`.  Each pass consumes at
least 4 bytes or stops, so the fuel `s.length + 1` supplied by
`GetRecords` can never run out first. -/
def recordsLoop : Nat → FileState → List Nat → Except DErr (FileState × List Nat)
  | 0, _, _ => .error .fuelOut
  | fuel + 1, st, s =>
    match readInt s with
    | .error e => .error e
    | .ok (tag, s) =>
      if tag = 2 then
        match GetRecordType2 st s with
        | .error e => .error e
        | .ok (st, s) => recordsLoop fuel st s
      else if tag = 3 then
        match GetRecordType3 st s with
        | .error e => .error e
        | .ok (st, s) => recordsLoop fuel st s
      else if tag = 6 then
        recordsLoop fuel st s
      else if tag = 7 then
        match GetRecordType7 st s with
        | .error e => .error e
        | .ok (st, s) => recordsLoop fuel st s
      else if tag = 999 then
        GetData st (s.drop 4)
      else
        recordsLoop fuel st s

/-- `GetRecords` on a whole byte stream: parse the type-1 header, then run
the dispatch loop.  The decode outcome is returned beside the raw
`compressionbias` bytes, which nothing after the header ever reads. -/
def GetRecords (s : List Nat) :
    Except DErr (FileState × List Nat) × List Nat :=
  let (h, s1) := GetRecordType1 s
  (recordsLoop (s.length + 1) (initState h) s1, h.compressionbias)

/-- The row-building loop of `GetRow`: for each variable (at enumerate
index `i`) it appends `variable.data[ind]` -- the *variable's* position,
not the requested row. -/
def getRowAux : Nat → List Variable → Except DErr (List PyVal)
  | _, [] => .ok []
  | i, v :: vs => do
    let x ← pyIdx v.data (i : Int)
    let r ← getRowAux (i + 1) vs
    .ok (x :: r)

/-- `GetRow(row)`: the guard is `(row < 0) or (row > self.numcases)`.
`self.numcases` is a tuple whenever the header parsed, and in Python 2 an
int compares *less* than any tuple, so `row > self.numcases` is `False`
then; only when the header unpack failed (`numcases` is the int `0`) is
the comparison a real one. -/
def GetRow (st : FileState) (row : Int) : Except DErr (Option (List PyVal)) :=
  let gtCases : Bool :=
    match st.numcases with
    | some _ => false
    | none => decide (0 < row)
  if row < 0 ∨ gtCases = true then
    .ok none
  else
    match getRowAux 0 st.variablelist with
    | .error e => .error e
    | .ok l => .ok (some l)

/-! ## Concrete inputs used by the claim theorems -/

/-- A one-variable, one-case compressed file state whose only variable is
numeric. -/
def c1NumState : FileState :=
  { emptyState with
      compressionswitch := some 1, numcases := some 1,
      SYSMIS := some (List.replicate 8 3),
      variablelist := [{ defVariable with typecode := 0 }] }

/-- A one-variable, one-case compressed file state whose only variable is
a string of declared width 8. -/
def c1StrState : FileState :=
  { emptyState with
      compressionswitch := some 1, numcases := some 1,
      SYSMIS := some (List.replicate 8 3),
      variablelist := [{ defVariable with typecode := 8 }] }

/-- A complete type-2 record body (after its type tag): numeric typecode,
no label, missing-value marker 1, zero format words, the non-blank name
`A.......`, the declared 8-byte missing-value payload (bytes 9), and then
8 further bytes (bytes 7) that belong to whatever follows the record. -/
def c2stream : List Nat :=
  i4enc 0 ++ i4enc 0 ++ i4enc 1 ++ List.replicate 4 0 ++ List.replicate 4 0 ++
  ([65] ++ List.replicate 7 32) ++ List.replicate 8 9 ++ List.replicate 8 7

/-- One 80-byte documents line (all zero bytes). -/
def line80 : List Nat := List.replicate 80 0

/-- A whole file: an all-zero 176-byte header (0 declared cases), a type-6
documents record with element count 1 and one 80-byte line, then the
terminator 999 with its 4-byte pad. -/
def c3stream : List Nat :=
  List.replicate 176 0 ++ i4enc 6 ++ i4enc 1 ++ line80 ++ i4enc 999 ++
  List.replicate 4 0

/-- A whole file: an all-zero 176-byte header (0 declared cases), a type-3
record with zero label pairs whose following type-4 slot holds the invalid
tag 7, then the terminator 999 with its 4-byte pad. -/
def c4stream : List Nat :=
  List.replicate 176 0 ++ i4enc 3 ++ i4enc 0 ++ i4enc 7 ++ i4enc 999 ++
  List.replicate 4 0

/-- A two-variable file state whose columns hold 2 cases each:
variable 0 has data `[1, 2]`, variable 1 has data `[3, 4]`. -/
def c9State : FileState :=
  { emptyState with
      numcases := some 2,
      variablelist := [{ defVariable with data := [.vInt 1, .vInt 2] },
                       { defVariable with data := [.vInt 3, .vInt 4] }] }

/-! ## Claim theorems -/

set_option maxRecDepth 100000

/-- C1 (code bug): the claim says a decode-failure sentinel for a string
cell is promoted to a fatal read error exactly as for a numeric cell.  In
the code the numeric path is fatal (`GetNumber` returns `"False"` and
`GetData` exits reporting case 0, variable 0), but `GetString` signals
failure with the `SYSMIS` float while `GetData` compares the result
against the string `"False"`, a comparison that can never be true; so on a
control byte 255 (system-missing/unavailable) the string cell's sentinel
is appended as data and the read completes without any error. -/
theorem c1_string_sentinel_not_fatal :
    GetData c1NumState ([252] ++ List.replicate 7 0) = .error (.exit1 0 0)
    ∧ (GetData c1StrState ([255] ++ List.replicate 7 0)).map
        (fun p => (p.1.variablelist.map (fun v => v.data), p.2)) =
      .ok ([[.vFlt (List.replicate 8 3)]], []) := by
  constructor
  · rfl
  · rfl

/-- C2 (code bug): the claim says the type-2 handler reads exactly `|m|`
eight-byte words for the missing-value payload.  On a record with marker
1 and a 44-byte body (28 bytes of header fields, the declared 8-byte
payload of bytes 9, and 8 trailing bytes 7 belonging to the next record),
the handler consumes all 44 bytes -- the skip loop eats the declared
payload and the decode then reads 8 further bytes -- and the "missing
value" it stores is the trailing bytes 7, not the declared payload. -/
theorem c2_missing_payload_double_read :
    (GetRecordType2 emptyState c2stream).map
      (fun p => (p.2, p.1.variablelist.map (fun v => v.missingd))) =
    .ok ([], [MissingD.lst [List.replicate 8 7]]) := by
  rfl

/-- C3 (code bug): the claim says a type-6 tag decodes the documents
block.  Running the full reader over a file containing a type-6 record
leaves `documents` empty (the dispatch branch for tag 6 is `pass`), the
record's bytes being re-read as type tags instead; yet the (never-called)
`GetRecordType6` handler applied to that very record body would store the
80-byte line. -/
theorem c3_documents_never_decoded :
    ((GetRecords c3stream).1).map (fun p => (p.1.documents, p.2)) =
      .ok ([], [])
    ∧ (GetRecordType6 emptyState (i4enc 1 ++ line80)).map
        (fun p => (p.1.documents, p.2)) = .ok (line80, []) := by
  constructor
  · rfl
  · rfl

/-- C4 (counterexample): the claim says an invalid type-4 tag aborts all
further dictionary parsing.  On a file whose type-3 record carries the
invalid type-4 tag 7, the reader keeps going, consumes the subsequent
terminator record, and completes the whole decode normally. -/
theorem c4_invalid_type4_counterexample :
    ((GetRecords c4stream).1).map (fun p => (p.1.variablelist.length, p.2)) =
      .ok (0, []) := by
  rfl

/-- C9 (code bug): the claim says `GetRow` is bounds-checked against the
declared case count and returns the requested case's value for every
variable.  On a 2-variable, 2-case state, requesting row 1 returns
`[1, 4]` -- each variable's column indexed by the *variable's* position
instead of the case index (the claim demands `[2, 4]`) -- and the
out-of-range row 5 returns the same list instead of `None`, because
`row > self.numcases` compares an int against a tuple, which is always
false in Python 2. -/
theorem c9_getrow_diagonal :
    GetRow c9State 1 = .ok (some [.vInt 1, .vInt 4])
    ∧ GetRow c9State 5 = .ok (some [.vInt 1, .vInt 4])
    ∧ GetRow c9State (-1) = .ok none := by
  refine ⟨?_, ?_, ?_⟩ <;> rfl

/-- C6 (confirmed): for every control byte `b` with `2 ≤ b ≤ 251`,
decoding one compressed numeric cell whose control byte is `b` yields
exactly the number `b - 100`, leaving the rest of the cluster and the
stream untouched. -/
theorem c6_compact_roundtrip (t : Int) (sysmis : Option (List Nat))
    (b : Nat) (cl s : List Nat) (h2 : 2 ≤ b) (h251 : b ≤ 251) :
    GetNumber (some t) sysmis (b :: cl) s = .ok (.vInt ((b : Int) - 100), cl, s) := by
  simp only [GetNumber, List.isEmpty_cons, Bool.false_eq_true, if_false, reduceCtorEq]
  rw [if_pos ⟨by omega, by omega⟩]

/-- Witness for C6 at the concrete control byte 150. -/
theorem c6_compact_roundtrip_witness :
    GetNumber (some 1) none [150] [] = .ok (.vInt 50, [], []) := by
  have h := c6_compact_roundtrip 1 none 150 [] [] (by decide) (by decide)
  exact h.trans (by norm_num)

/-- C5 (counterexample): the claim says every control byte, in particular
0 and 1, produces one of the five defined outcomes.  Control bytes 0 and 1
match none of the branches of the compressed `GetNumber`, which therefore
falls off the end of the method and returns Python `None`. -/
theorem c5_byte0_none_counterexample :
    GetNumber (some 1) (some zero8) [0] [] = .ok (.vNone, [], [])
    ∧ GetNumber (some 1) (some zero8) [1] [] = .ok (.vNone, [], []) :=
  ⟨rfl, rfl⟩

/-- `readFlt` succeeds on a long-enough stream. -/
theorem readFlt_of_le (s : List Nat) (h : 8 ≤ s.length) :
    readFlt s = .ok (s.take 8, s.drop 8) := by
  unfold readFlt
  rw [if_pos h]

/-- C5 (amended): for every control byte `2 ≤ b ≤ 255` the compressed
numeric cell operation produces exactly one of the five defined outcomes
-- compact value `b - 100`, end-of-data (`"False"`), raw 8-byte float,
zero, or the system-missing sentinel -- provided the raw 8-byte operand of
byte 253 is either fully available or the stream is exhausted; control
bytes 0 and 1, however, match no branch and yield Python `None`. -/
theorem c5_outcomes_amended (t : Int) (ms : List Nat) (b : Nat)
    (cl s : List Nat) (hb : b ≤ 255) (hs : s.length = 0 ∨ 8 ≤ s.length) :
    (2 ≤ b ∧ b ≤ 251 →
      GetNumber (some t) (some ms) (b :: cl) s = .ok (.vInt ((b : Int) - 100), cl, s))
    ∧ (b = 252 →
      GetNumber (some t) (some ms) (b :: cl) s = .ok (.vStr falseBytes, cl, s))
    ∧ (b = 253 ∧ s.length = 0 →
      GetNumber (some t) (some ms) (b :: cl) s = .ok (.vStr falseBytes, cl, s.drop 8))
    ∧ (b = 253 ∧ 8 ≤ s.length →
      GetNumber (some t) (some ms) (b :: cl) s = .ok (.vFlt (s.take 8), cl, s.drop 8))
    ∧ (b = 254 →
      GetNumber (some t) (some ms) (b :: cl) s = .ok (.vFlt zero8, cl, s))
    ∧ (b = 255 →
      GetNumber (some t) (some ms) (b :: cl) s = .ok (.vFlt ms, cl, s))
    ∧ (b ≤ 1 →
      GetNumber (some t) (some ms) (b :: cl) s = .ok (.vNone, cl, s)) := by
  refine ⟨?_, ?_, ?_, ?_, ?_, ?_, ?_⟩
  · rintro ⟨h2, h251⟩
    simp only [GetNumber, List.isEmpty_cons, Bool.false_eq_true, if_false, reduceCtorEq]
    rw [if_pos ⟨by omega, by omega⟩]
  · rintro rfl
    rfl
  · rintro ⟨rfl, hlen⟩
    have : s = [] := List.length_eq_zero.mp hlen
    subst this
    rfl
  · rintro ⟨rfl, hlen⟩
    have hlt : (List.take 8 s).length = 8 := by
      rw [List.length_take]
      omega
    simp [GetNumber, hlt]
  · rintro rfl
    rfl
  · rintro rfl
    rfl
  · intro h1
    interval_cases b
    · rfl
    · rfl

/-- Witness for C5 at the concrete control byte 253 with a raw operand. -/
theorem c5_outcomes_amended_witness :
    GetNumber (some 1) (some zero8) [253] (List.replicate 8 5) =
      .ok (.vFlt (List.replicate 8 5), [], []) := by
  have h := (c5_outcomes_amended 1 zero8 253 [] (List.replicate 8 5)
    (by decide) (Or.inr (by decide))).2.2.2.1 ⟨rfl, by decide⟩
  exact h.trans (by rfl)

/-- C7 (confirmed): on a type-2 record the decoded missing-value
specification has exactly the shape determined by the signed marker:
0 gives no discrete value and the `(None, None)` range; -2 a two-float
range with the discrete slot untouched; -3 the same range plus exactly one
discrete float; 1, 2, 3 exactly that many discrete floats and a `None`
range.  (The values are read from the stream after the skip loop of
`missingPayload`, hence the offsets starting at `8 * |m|`.) -/
theorem c7_missing_shapes (mm : Int) (s : List Nat)
    (h : 16 * mm.natAbs ≤ s.length) :
    (mm = 0 → missingPayload mm s = .ok (.pynone, .pairNone, s))
    ∧ (mm = -2 → missingPayload mm s =
        .ok (.emptyList, .pairVals ((s.drop 16).take 8) ((s.drop 24).take 8),
             s.drop 32))
    ∧ (mm = -3 → missingPayload mm s =
        .ok (.single ((s.drop 40).take 8),
             .pairVals ((s.drop 24).take 8) ((s.drop 32).take 8), s.drop 48))
    ∧ (mm = 1 → missingPayload mm s =
        .ok (.lst [(s.drop 8).take 8], .pynone, s.drop 16))
    ∧ (mm = 2 → missingPayload mm s =
        .ok (.lst [(s.drop 16).take 8, (s.drop 24).take 8], .pynone, s.drop 32))
    ∧ (mm = 3 → missingPayload mm s =
        .ok (.lst [(s.drop 24).take 8, (s.drop 32).take 8, (s.drop 40).take 8],
             .pynone, s.drop 48)) := by
  refine ⟨?_, ?_, ?_, ?_, ?_, ?_⟩
  · rintro rfl
    rfl
  · rintro rfl
    have h16 : readFlt (s.drop 16) = .ok ((s.drop 16).take 8, (s.drop 16).drop 8) :=
      readFlt_of_le _ (by rw [List.length_drop]; omega)
    have h24 : readFlt (s.drop 24) = .ok ((s.drop 24).take 8, (s.drop 24).drop 8) :=
      readFlt_of_le _ (by rw [List.length_drop]; omega)
    simp [missingPayload, h16, h24, List.drop_drop]
  · rintro rfl
    have h24 : readFlt (s.drop 24) = .ok ((s.drop 24).take 8, (s.drop 24).drop 8) :=
      readFlt_of_le _ (by rw [List.length_drop]; omega)
    have h32 : readFlt (s.drop 32) = .ok ((s.drop 32).take 8, (s.drop 32).drop 8) :=
      readFlt_of_le _ (by rw [List.length_drop]; omega)
    have h40 : readFlt (s.drop 40) = .ok ((s.drop 40).take 8, (s.drop 40).drop 8) :=
      readFlt_of_le _ (by rw [List.length_drop]; omega)
    simp [missingPayload, h24, h32, h40, List.drop_drop]
  · rintro rfl
    have h8 : readFlt (s.drop 8) = .ok ((s.drop 8).take 8, (s.drop 8).drop 8) :=
      readFlt_of_le _ (by rw [List.length_drop]; omega)
    simp [missingPayload, readFlts, h8, List.drop_drop]
  · rintro rfl
    have h16 : readFlt (s.drop 16) = .ok ((s.drop 16).take 8, (s.drop 16).drop 8) :=
      readFlt_of_le _ (by rw [List.length_drop]; omega)
    have h24 : readFlt (s.drop 24) = .ok ((s.drop 24).take 8, (s.drop 24).drop 8) :=
      readFlt_of_le _ (by rw [List.length_drop]; omega)
    simp [missingPayload, readFlts, h16, h24, List.drop_drop]
  · rintro rfl
    have h24 : readFlt (s.drop 24) = .ok ((s.drop 24).take 8, (s.drop 24).drop 8) :=
      readFlt_of_le _ (by rw [List.length_drop]; omega)
    have h32 : readFlt (s.drop 32) = .ok ((s.drop 32).take 8, (s.drop 32).drop 8) :=
      readFlt_of_le _ (by rw [List.length_drop]; omega)
    have h40 : readFlt (s.drop 40) = .ok ((s.drop 40).take 8, (s.drop 40).drop 8) :=
      readFlt_of_le _ (by rw [List.length_drop]; omega)
    simp [missingPayload, readFlts, h24, h32, h40, List.drop_drop]

/-- Witness for C7 at marker -3 on a 48-byte stream. -/
theorem c7_missing_shapes_witness :
    missingPayload (-3) (List.replicate 48 0) =
      .ok (.single (List.replicate 8 0),
           .pairVals (List.replicate 8 0) (List.replicate 8 0), []) := by
  have h := (c7_missing_shapes (-3) (List.replicate 48 0) (by decide)).2.2.1 rfl
  exact h.trans (by rfl)

/-- C8 (counterexample): the claim says the accumulated string is returned
as soon as its length *reaches* the declared width.  With declared width
8, after the first 253-chunk the accumulator has length exactly 8, yet the
decoder keeps going (the source tests `len(ln) > var.typecode`, strictly),
consumes a second 253-chunk and returns a 16-byte string. -/
theorem c8_reach_width_counterexample :
    GetString (some 1) (some zero8) 8 [253, 253, 254]
        (List.replicate 8 65 ++ List.replicate 8 66) =
      .ok (.vStr (List.replicate 8 65 ++ List.replicate 8 66), [254], [])
    ∧ (List.replicate 8 65 ++ List.replicate 8 66 : List Nat).length ≠ 8 :=
  ⟨rfl, by decide⟩

/-- C8 (amended): one pass of the compressed string-cell loop: control
bytes 1..251 return the numeric short code `b - 100` immediately; 252 and
255 return the system-missing sentinel; 254 returns the accumulator when
it is non-empty (and just continues when it is empty); a 253-chunk is
appended to the accumulator and the result is returned only when the
accumulated length *strictly exceeds* the declared width -- when it merely
reaches the width, the loop continues. -/
theorem c8_string_cell_amended (ms : List Nat) (tc : Int) (n : Nat)
    (ln : List Nat) (b : Nat) (cl s : List Nat) :
    (1 ≤ b ∧ b ≤ 251 →
      getStringLoop (some ms) tc (n + 1) ln (b :: cl) s = .ok (.vInt ((b : Int) - 100), cl, s))
    ∧ (b = 252 ∨ b = 255 →
      getStringLoop (some ms) tc (n + 1) ln (b :: cl) s = .ok (.vFlt ms, cl, s))
    ∧ (b = 254 ∧ ln ≠ [] →
      getStringLoop (some ms) tc (n + 1) ln (b :: cl) s = .ok (.vStr ln, cl, s))
    ∧ (b = 254 ∧ ln = [] →
      getStringLoop (some ms) tc (n + 1) ln (b :: cl) s = getStringLoop (some ms) tc n ln cl s)
    ∧ (b = 253 ∧ 8 ≤ s.length ∧ tc < ((ln.length : Int) + 8) →
      getStringLoop (some ms) tc (n + 1) ln (b :: cl) s =
        .ok (.vStr (ln ++ s.take 8), cl, s.drop 8))
    ∧ (b = 253 ∧ 8 ≤ s.length ∧ ((ln.length : Int) + 8) ≤ tc →
      getStringLoop (some ms) tc (n + 1) ln (b :: cl) s =
        getStringLoop (some ms) tc n (ln ++ s.take 8) cl (s.drop 8)) := by
  refine ⟨?_, ?_, ?_, ?_, ?_, ?_⟩
  · rintro ⟨h1, h251⟩
    simp only [getStringLoop, List.isEmpty_cons, Bool.false_eq_true, if_false, reduceCtorEq]
    rw [if_pos ⟨by omega, by omega⟩]
  · rintro (rfl | rfl)
    · rfl
    · rfl
  · rintro ⟨rfl, hln⟩
    simp only [getStringLoop, List.isEmpty_cons, Bool.false_eq_true, if_false, if_true]
    rw [if_neg (by decide), if_neg (by decide), if_neg (by decide), if_pos hln]
  · rintro ⟨rfl, rfl⟩
    rfl
  · rintro ⟨rfl, hlen, htc⟩
    have hchunk : (List.take 8 s).length = 8 := by
      rw [List.length_take]
      omega
    have happ : (ln ++ List.take 8 s).length = ln.length + 8 := by
      rw [List.length_append, hchunk]
    simp only [getStringLoop, List.isEmpty_cons, Bool.false_eq_true, if_false, if_true]
    rw [if_neg (by decide), if_neg (by decide),
      if_neg (by omega), if_pos (by rw [happ]; push_cast; omega)]
  · rintro ⟨rfl, hlen, htc⟩
    have hchunk : (List.take 8 s).length = 8 := by
      rw [List.length_take]
      omega
    have happ : (ln ++ List.take 8 s).length = ln.length + 8 := by
      rw [List.length_append, hchunk]
    simp only [getStringLoop, List.isEmpty_cons, Bool.false_eq_true, if_false, if_true]
    rw [if_neg (by decide), if_neg (by decide),
      if_neg (by omega), if_neg (by rw [happ]; push_cast; omega)]

/-- Witness for C8: a 253-chunk that makes the accumulator reach exactly
the declared width 8 does not return; the loop continues and only a
following 254 terminator delivers the 8-byte string. -/
theorem c8_string_cell_amended_witness :
    getStringLoop (some zero8) 8 6 [] [253, 254] (List.replicate 8 65) =
      .ok (.vStr (List.replicate 8 65), [], []) := by
  have h := (c8_string_cell_amended zero8 8 5 [] 253 [254] (List.replicate 8 65)).2.2.2.2.2
    ⟨rfl, by decide, by decide⟩
  exact h.trans (by rfl)

/-- C4 (amended): when the 4-byte slot after a type-3 record's label pairs
holds any value other than 4, the handler logs and returns normally with
the registry untouched (labels are not applied), and the dictionary record
loop simply continues with the next record -- it is not aborted. -/
theorem c4_invalid_type4_continues (st : FileState) (s s1 : List Nat)
    (cnt : Int) (vs fs : List (List Nat)) (t : Int) (n : Nat)
    (h1 : int32 (s.take 4) = some cnt)
    (h2 : labelPairs cnt.toNat (s.drop 4) = .ok (vs, fs, s1))
    (h3 : int32 (s1.take 4) = some t)
    (h4 : t ≠ 4) :
    GetRecordType3 st s =
      .ok ({ st with r3values := [], r3labels := [] }, s1.drop 4)
    ∧ recordsLoop (n + 1) st (i4enc 3 ++ s) =
        recordsLoop n { st with r3values := [], r3labels := [] } (s1.drop 4) := by
  have hr : readInt s = .ok (cnt, s.drop 4) := by
    unfold readInt
    rw [h1]
  have hr1 : readInt s1 = .ok (t, s1.drop 4) := by
    unfold readInt
    rw [h3]
  have hmain : GetRecordType3 st s =
      .ok ({ st with r3values := [], r3labels := [] }, s1.drop 4) := by
    unfold GetRecordType3
    simp only [hr, h2, hr1]
    rw [if_neg h4]
  have hri : readInt (i4enc 3 ++ s) = .ok (3, s) := by
    have ht : int32 ((i4enc 3 ++ s).take 4) = some 3 := by rfl
    unfold readInt
    rw [ht]
    rfl
  refine ⟨hmain, ?_⟩
  simp only [recordsLoop, hri, hmain, if_true]
  rw [if_neg (by decide)]

/-- Witness for C4's amended theorem: a pair-free type-3 record whose
type-4 slot holds 7; the handler returns normally and the loop recurses on
the remaining stream. -/
theorem c4_invalid_type4_continues_witness :
    GetRecordType3 emptyState (i4enc 0 ++ i4enc 7) =
      .ok ({ emptyState with r3values := [], r3labels := [] }, [])
    ∧ recordsLoop 1 emptyState (i4enc 3 ++ (i4enc 0 ++ i4enc 7)) =
        recordsLoop 0 { emptyState with r3values := [], r3labels := [] } [] := by
  have h := c4_invalid_type4_continues emptyState (i4enc 0 ++ i4enc 7) (i4enc 7)
    0 [] [] 7 0 (by rfl) (by rfl) (by rfl) (by decide)
  exact ⟨h.1, h.2⟩

/-- Byte segments strictly before offset 84 of `a ++ x ++ c'` do not
depend on `x` as long as they stay inside `a`. -/
theorem seg_take_eq (a x c' : List Nat) (k n : Nat) (hkn : k + n ≤ a.length) :
    ((a ++ x ++ c').drop k).take n = (a.drop k).take n := by
  rw [List.append_assoc]
  rw [List.drop_append_of_le_length (by omega)]
  rw [List.take_append_of_le_length (by rw [List.length_drop]; omega)]

/-- C10 (confirmed): the compression-bias bytes are stored raw and never
consulted again.  Any two input streams that agree everywhere except in
the 8 bias bytes at header offsets 84..91 produce the *same* decode
outcome -- the same dictionary, the same variable data, the same errors --
differing at most in the stored raw bias.  The second conjunct projects
this onto the per-variable data sequences. -/
theorem c10_bias_noninterference (a b1 b2 c : List Nat)
    (ha : a.length = 84) (hb1 : b1.length = 8) (hb2 : b2.length = 8) :
    (GetRecords (a ++ b1 ++ c)).1 = (GetRecords (a ++ b2 ++ c)).1
    ∧ ((GetRecords (a ++ b1 ++ c)).1).map
        (fun p => p.1.variablelist.map (fun v => v.data)) =
      ((GetRecords (a ++ b2 ++ c)).1).map
        (fun p => p.1.variablelist.map (fun v => v.data)) := by
  have hlen : (a ++ b1 ++ c).length = (a ++ b2 ++ c).length := by
    simp [hb1, hb2]
  have e0 : (a ++ b1 ++ c).take 4 = (a ++ b2 ++ c).take 4 := by
    have g1 := seg_take_eq a b1 c 0 4 (by omega)
    have g2 := seg_take_eq a b2 c 0 4 (by omega)
    simpa using g1.trans g2.symm
  have e4 : ((a ++ b1 ++ c).drop 4).take 60 = ((a ++ b2 ++ c).drop 4).take 60 :=
    (seg_take_eq a b1 c 4 60 (by omega)).trans (seg_take_eq a b2 c 4 60 (by omega)).symm
  have e64 : ((a ++ b1 ++ c).drop 64).take 4 = ((a ++ b2 ++ c).drop 64).take 4 :=
    (seg_take_eq a b1 c 64 4 (by omega)).trans (seg_take_eq a b2 c 64 4 (by omega)).symm
  have e68 : ((a ++ b1 ++ c).drop 68).take 4 = ((a ++ b2 ++ c).drop 68).take 4 :=
    (seg_take_eq a b1 c 68 4 (by omega)).trans (seg_take_eq a b2 c 68 4 (by omega)).symm
  have e72 : ((a ++ b1 ++ c).drop 72).take 4 = ((a ++ b2 ++ c).drop 72).take 4 :=
    (seg_take_eq a b1 c 72 4 (by omega)).trans (seg_take_eq a b2 c 72 4 (by omega)).symm
  have e76 : ((a ++ b1 ++ c).drop 76).take 4 = ((a ++ b2 ++ c).drop 76).take 4 :=
    (seg_take_eq a b1 c 76 4 (by omega)).trans (seg_take_eq a b2 c 76 4 (by omega)).symm
  have e80 : ((a ++ b1 ++ c).drop 80).take 4 = ((a ++ b2 ++ c).drop 80).take 4 :=
    (seg_take_eq a b1 c 80 4 (by omega)).trans (seg_take_eq a b2 c 80 4 (by omega)).symm
  have hd1 : (a ++ b1 ++ c).drop 92 = c := by
    rw [show (92 : Nat) = (a ++ b1).length + 0 from by simp [ha, hb1]]
    rw [List.drop_append]
    rfl
  have hd2 : (a ++ b2 ++ c).drop 92 = c := by
    rw [show (92 : Nat) = (a ++ b2).length + 0 from by simp [ha, hb2]]
    rw [List.drop_append]
    rfl
  have e92 : ((a ++ b1 ++ c).drop 92).take 84 = ((a ++ b2 ++ c).drop 92).take 84 := by
    rw [hd1, hd2]
  have h176a : (a ++ b1 ++ c).drop 176 = c.drop 84 := by
    rw [show (176 : Nat) = (a ++ b1).length + 84 from by simp [ha, hb1]]
    rw [List.drop_append]
  have h176b : (a ++ b2 ++ c).drop 176 = c.drop 84 := by
    rw [show (176 : Nat) = (a ++ b2).length + 84 from by simp [ha, hb2]]
    rw [List.drop_append]
  have hmain : (GetRecords (a ++ b1 ++ c)).1 = (GetRecords (a ++ b2 ++ c)).1 := by
    simp only [GetRecords, GetRecordType1, initState]
    rw [e0, e4, e64, e68, e72, e76, e80, e92, h176a, h176b, hlen]
  exact ⟨hmain, by rw [hmain]⟩

/-- Witness for C10: two concrete minimal files (all-zero header and an
immediate terminator) differing only in their bias bytes decode to
identical results. -/
theorem c10_bias_noninterference_witness :
    (GetRecords (List.replicate 84 0 ++ List.replicate 8 0 ++
        (List.replicate 84 0 ++ i4enc 999 ++ List.replicate 4 0))).1 =
    (GetRecords (List.replicate 84 0 ++ List.replicate 8 9 ++
        (List.replicate 84 0 ++ i4enc 999 ++ List.replicate 4 0))).1 := by
  have h := c10_bias_noninterference (List.replicate 84 0) (List.replicate 8 0)
    (List.replicate 8 9) (List.replicate 84 0 ++ i4enc 999 ++ List.replicate 4 0)
    (by decide) (by decide) (by decide)
  exact h.1

end SPSSRead
